import Mathlib

/-!
Shallow embedding of `pkg/controller/provider/web/vsphere/vddk.go`
(the VDDK build-image admission / staging / trigger handlers).

The Go file's shared mutable state is the pair of globals
`isBusy : bool` (guarded by `buildLock sync.Mutex`) and the staged file
`/tmp/uploads/vddk.tar.gz`.  We model that pair as `SrvState`.

Each HTTP handler is embedded as a pure function from a request record to
a result record.  A request record carries one boolean per fallible
external call the handler makes (`Prepare`, `ctx.FormFile`, `file.Open`,
`os.MkdirAll`, `os.Create`, `io.Copy`, `BuildAndPushImage`, ...), which is
exactly the nondeterminism of the environment; everything else in the
handler body is deterministic control flow translated branch by branch
from the source.  Responses are the ordered list of writes the handler
performs through `ctx.JSON` / `ctx.Status` / `ctx.File`; scheduled lease
releases are the ordered list of `resetBusyAfter` durations (in seconds).
-/

namespace Vddk

/-- Delay passed to `resetBusyAfter` by `BuildImage` (Go: `waitForDownload
= 15 * time.Second`), modelled in seconds. -/
def waitForDownload : Nat := 15

/-- Tags for the distinct response bodies the Go file can emit.  Each
constructor corresponds to one `JSONError` / `JSONSuccess` / raw call
site in `vddk.go`; the formatted message text is abstracted to its tag. -/
inductive Msg where
  /-- `ctx.Status(status)` + `base.SetForkliftError` on `Prepare` failure. -/
  | forklift
  /-- "Server is busy processing another build. Please try again later." (503). -/
  | busy
  /-- "No file provided" (400). -/
  | noFile
  /-- "Could not process uploaded file" (500, `file.Open` failed). -/
  | processFail
  /-- "Could not prepare upload directory" (500, `os.MkdirAll` failed). -/
  | mkdirFail
  /-- "Could not save file on disk" (500, `os.Create` failed). -/
  | saveFail
  /-- "error copy to the local file" (500, `io.Copy` failed). -/
  | copyFail
  /-- `BuildAndPushImage` error text (500). -/
  | triggerFail
  /-- "VDDK build started; check your registry in OpenShift" (200). -/
  | buildStarted
  /-- "Could not determine namespace" (500). -/
  | nsFail
  /-- "Could not load cluster config" (500). -/
  | cfgFail
  /-- "Could not create image client" (500). -/
  | clientFail
  /-- "Error checking image reference" (500). -/
  | lookupFail
  /-- "Image: vddk:latest not found" (404). -/
  | imageNotFound
  /-- "Image: vddk:latest exists" (200, with `imageReference` data). -/
  | imageExists
  /-- "VDDK tar not found" (404). -/
  | tarNotFound
  /-- "Failed to stat file" (500). -/
  | statFail
  /-- `ctx.File(filePath)` streaming the tar back (200 octet-stream). -/
  | tarStream
deriving DecidableEq

/-- A response write: HTTP status code paired with the body tag. -/
abbrev Resp := Nat × Msg

/-- The shared mutable state of the subsystem: the global busy flag
(Go: `isBusy`, guarded by `buildLock`) and the content of the staged
artifact file at `/tmp/uploads/vddk.tar.gz` (`none` = file absent,
`some bytes` = file present with those bytes). -/
structure SrvState where
  isBusy : Bool
  vddkFile : Option (List Nat)
deriving DecidableEq

/-- Environment of one `BuildImage` request: the multipart payload and
the outcome of every fallible call the handler makes, in source order. -/
structure Req where
  /-- `h.Prepare(ctx)` returned `http.StatusOK`. -/
  prepareOk : Bool
  /-- The non-OK status `Prepare` returned when it failed. -/
  prepareStatus : Nat
  /-- `ctx.FormFile("file")` succeeded (a file field was present). -/
  hasFile : Bool
  /-- `file.Open()` succeeded. -/
  openOk : Bool
  /-- `os.MkdirAll(uploadDir, uploadDirPerm)` succeeded. -/
  mkdirOk : Bool
  /-- `os.Create(filePath)` succeeded. -/
  createOk : Bool
  /-- `io.Copy(dst, src)` succeeded. -/
  copyOk : Bool
  /-- Bytes already written to `dst` when `io.Copy` failed midway. -/
  partialData : List Nat
  /-- The uploaded file's bytes (what a successful copy writes). -/
  payload : List Nat
  /-- `BuildAndPushImage()` returned nil. -/
  triggerOk : Bool
deriving DecidableEq

/-- Result of one `BuildImage` call: the shared state it leaves behind,
the ordered response writes, the ordered `resetBusyAfter` durations, and
which effectful calls were reached. -/
structure HRes where
  state : SrvState
  responses : List Resp
  scheduled : List Nat
  /-- The handler set `isBusy := true` under `buildLock` (passed line 68). -/
  acquired : Bool
  /-- `ctx.FormFile` was invoked. -/
  formFileCalled : Bool
  /-- `file.Open` was invoked. -/
  openCalled : Bool
  /-- `os.MkdirAll` was invoked. -/
  mkdirCalled : Bool
  /-- `os.Create` was invoked. -/
  createCalled : Bool
  /-- `io.Copy` was invoked. -/
  copyCalled : Bool
  /-- `BuildAndPushImage` was invoked. -/
  triggerCalled : Bool
deriving DecidableEq

/-- Embedding of `VddkHandler.BuildImage` (vddk.go lines 54-109), branch
by branch in source order.  Notes on fidelity:
  * the busy check plus `isBusy = true` (lines 62-69) is one atomic step
    because the source holds `buildLock` across it;
  * `defer resetBusyAfter(waitForDownload)` (line 70) runs on every
    return path after acquisition, hence `scheduled = [waitForDownload]`
    in every branch below the acquisition and `[]` above it;
  * the `os.Create` error branch (lines 91-95) has no `return`, so after
    writing the save-file error the handler falls through: `dst` is nil,
    `dst.Close()` returns `ErrInvalid` (ignored by defer), `io.Copy` on
    the nil `*os.File` fails with `ErrInvalid`, and a second `JSONError`
    is written before the `return` at line 100;
  * `os.Create` truncates an existing file, so reaching a successful
    create sets the staged file to empty before the copy writes bytes. -/
def BuildImage (r : Req) (s : SrvState) : HRes :=
  if r.prepareOk = false then
    { state := s, responses := [(r.prepareStatus, Msg.forklift)], scheduled := [],
      acquired := false, formFileCalled := false, openCalled := false,
      mkdirCalled := false, createCalled := false, copyCalled := false,
      triggerCalled := false }
  else if s.isBusy then
    { state := s, responses := [(503, Msg.busy)], scheduled := [],
      acquired := false, formFileCalled := false, openCalled := false,
      mkdirCalled := false, createCalled := false, copyCalled := false,
      triggerCalled := false }
  else
    let s1 : SrvState := { s with isBusy := true }
    if r.hasFile = false then
      { state := s1, responses := [(400, Msg.noFile)], scheduled := [waitForDownload],
        acquired := true, formFileCalled := true, openCalled := false,
        mkdirCalled := false, createCalled := false, copyCalled := false,
        triggerCalled := false }
    else if r.openOk = false then
      { state := s1, responses := [(500, Msg.processFail)], scheduled := [waitForDownload],
        acquired := true, formFileCalled := true, openCalled := true,
        mkdirCalled := false, createCalled := false, copyCalled := false,
        triggerCalled := false }
    else if r.mkdirOk = false then
      { state := s1, responses := [(500, Msg.mkdirFail)], scheduled := [waitForDownload],
        acquired := true, formFileCalled := true, openCalled := true,
        mkdirCalled := true, createCalled := false, copyCalled := false,
        triggerCalled := false }
    else if r.createOk = false then
      { state := s1, responses := [(500, Msg.saveFail), (500, Msg.copyFail)],
        scheduled := [waitForDownload],
        acquired := true, formFileCalled := true, openCalled := true,
        mkdirCalled := true, createCalled := true, copyCalled := true,
        triggerCalled := false }
    else
      let s2 : SrvState := { s1 with vddkFile := some [] }
      if r.copyOk = false then
        { state := { s2 with vddkFile := some r.partialData },
          responses := [(500, Msg.copyFail)], scheduled := [waitForDownload],
          acquired := true, formFileCalled := true, openCalled := true,
          mkdirCalled := true, createCalled := true, copyCalled := true,
          triggerCalled := false }
      else
        let s3 : SrvState := { s2 with vddkFile := some r.payload }
        if r.triggerOk = false then
          { state := s3, responses := [(500, Msg.triggerFail)], scheduled := [waitForDownload],
            acquired := true, formFileCalled := true, openCalled := true,
            mkdirCalled := true, createCalled := true, copyCalled := true,
            triggerCalled := true }
        else
          { state := s3, responses := [(200, Msg.buildStarted)], scheduled := [waitForDownload],
            acquired := true, formFileCalled := true, openCalled := true,
            mkdirCalled := true, createCalled := true, copyCalled := true,
            triggerCalled := true }

/-- Embedding of `resetBusy` (vddk.go lines 258-262): under `buildLock`,
unconditionally clear the busy flag.  Total (no failure mode). -/
def resetBusy (s : SrvState) : SrvState :=
  { s with isBusy := false }

/-- Environment of one `ImageUrl` request: outcome of each fallible call
in source order, plus the resolved reference on success. -/
structure IReq where
  prepareOk : Bool
  prepareStatus : Nat
  /-- `currentNamespace()` succeeded. -/
  nsOk : Bool
  /-- `rest.InClusterConfig()` succeeded. -/
  cfgOk : Bool
  /-- `imagev1client.NewForConfig(cfg)` succeeded. -/
  clientOk : Bool
  /-- `imageReference` returned a genuine lookup error. -/
  lookupErr : Bool
  /-- The ImageStreamTag exists. -/
  tagExists : Bool
  /-- `ist.Image.DockerImageReference` when it exists. -/
  imageRef : String
deriving DecidableEq

/-- Result of one `ImageUrl` call. -/
structure IRes where
  state : SrvState
  responses : List Resp
  scheduled : List Nat
  /-- The `imageReference` value included in the success envelope. -/
  imageRefOut : Option String
deriving DecidableEq

/-- Embedding of `VddkHandler.ImageUrl` (vddk.go lines 114-152), branch
by branch in source order.  The handler never touches `isBusy`, never
calls `resetBusyAfter` and never writes the staged file, so the shared
state is threaded through unchanged. -/
def ImageUrl (r : IReq) (s : SrvState) : IRes :=
  if r.prepareOk = false then
    { state := s, responses := [(r.prepareStatus, Msg.forklift)], scheduled := [],
      imageRefOut := none }
  else if r.nsOk = false then
    { state := s, responses := [(500, Msg.nsFail)], scheduled := [], imageRefOut := none }
  else if r.cfgOk = false then
    { state := s, responses := [(500, Msg.cfgFail)], scheduled := [], imageRefOut := none }
  else if r.clientOk = false then
    { state := s, responses := [(500, Msg.clientFail)], scheduled := [], imageRefOut := none }
  else if r.lookupErr then
    { state := s, responses := [(500, Msg.lookupFail)], scheduled := [], imageRefOut := none }
  else if r.tagExists = false then
    { state := s, responses := [(404, Msg.imageNotFound)], scheduled := [], imageRefOut := none }
  else
    { state := s, responses := [(200, Msg.imageExists)], scheduled := [],
      imageRefOut := some r.imageRef }

/-- Environment of one `DownloadVddkTar` request. -/
structure DReq where
  prepareOk : Bool
  prepareStatus : Nat
  /-- `os.Stat` failed with an error other than not-exist (only possible
  when the file is present in this model). -/
  statErr : Bool
deriving DecidableEq

/-- Result of one `DownloadVddkTar` call. -/
structure DRes where
  state : SrvState
  responses : List Resp
  scheduled : List Nat
  /-- The bytes streamed back by `ctx.File`, when reached. -/
  content : Option (List Nat)
deriving DecidableEq

/-- Embedding of `VddkHandler.DownloadVddkTar` (vddk.go lines 155-179).
`os.Stat` not-exist corresponds to `vddkFile = none`; the handler only
stats and streams the file, mutating nothing. -/
def DownloadVddkTar (r : DReq) (s : SrvState) : DRes :=
  if r.prepareOk = false then
    { state := s, responses := [(r.prepareStatus, Msg.forklift)], scheduled := [],
      content := none }
  else
    match s.vddkFile with
    | none =>
        { state := s, responses := [(404, Msg.tarNotFound)], scheduled := [],
          content := none }
    | some bytes =>
        if r.statErr then
          { state := s, responses := [(500, Msg.statFail)], scheduled := [],
            content := none }
        else
          { state := s, responses := [(200, Msg.tarStream)], scheduled := [],
            content := some bytes }

/-!
Interleaving model for the admission claims.  `isBusy` is written only
inside `buildLock`-protected sections (lines 62-69 and `resetBusy`), so
an interleaved execution of many handlers and timer goroutines is, as
far as the flag is concerned, a sequence of those atomic critical
sections.  An `Ev.attempt` runs one whole `BuildImage` call (its
admission section is the only part that touches the flag); an
`Ev.release` is one timer goroutine executing `resetBusy`.
-/

/-- One scheduling event in an interleaved execution. -/
inductive Ev where
  | attempt
  | release
deriving DecidableEq

/-- Run a sequence of interleaved events against the shared state: each
`attempt` performs a full `BuildImage` call with environment `req`
(recording its result), each `release` performs `resetBusy`. -/
def runH (req : Req) : SrvState → List Ev → SrvState × List HRes
  | s, [] => (s, [])
  | s, Ev.attempt :: evs =>
      let h := BuildImage req s
      let p := runH req h.state evs
      (p.1, h :: p.2)
  | s, Ev.release :: evs => runH req (resetBusy s) evs

/-- Number of attempts in a run that acquired the lease. -/
def acquiredCount (l : List HRes) : Nat :=
  l.countP (fun h => h.acquired)

/-!
Cycle-tagged transition system for the lease/timer lifecycle, used to
settle whether a stale scheduled release can clear a newer acquisition.
Each acquisition cycle gets a fresh tag `next`.  A cycle's life in the
source is: admission (lines 62-69, sets the flag, registers the defer),
then at handler return the defer runs `resetBusyAfter`, spawning the
timer goroutine (the schedule step), then after the sleep the goroutine
runs `resetBusy` (the fire step).  `obligations` holds cycles whose
handler has acquired but not yet returned; `pending` holds cycles whose
timer goroutine is sleeping.  There is no other write to `isBusy`
anywhere in the repository: `resetBusy` is called only from
`resetBusyAfter`, and there is no explicit release endpoint.
-/

/-- Global lease/timer state: the cycle currently holding the flag (if
any), cycles with a registered but not-yet-run defer, cycles with a
sleeping timer goroutine, and the next fresh cycle tag. -/
structure SysState where
  busy : Option Nat
  obligations : List Nat
  pending : List Nat
  next : Nat
deriving DecidableEq

/-- Labels identifying which cycle a transition belongs to. -/
inductive Label where
  | acq (c : Nat)
  | sched (c : Nat)
  | fire (c : Nat)
deriving DecidableEq

/-- One atomic transition of the lease/timer system (each constructor is
one `buildLock` critical section or one goroutine spawn). -/
inductive SysStep : SysState → Label → SysState → Prop where
  /-- Lines 62-69: an admission attempt finds the flag idle, sets it,
  and registers the deferred `resetBusyAfter` for this cycle. -/
  | acq {s : SysState} (h : s.busy = none) :
      SysStep s (Label.acq s.next)
        { busy := some s.next, obligations := s.next :: s.obligations,
          pending := s.pending, next := s.next + 1 }
  /-- Handler return: the deferred `resetBusyAfter` of cycle `c` runs,
  spawning the sleeping timer goroutine. -/
  | sched {s : SysState} {c : Nat} (h : c ∈ s.obligations) :
      SysStep s (Label.sched c)
        { busy := s.busy, obligations := s.obligations.erase c,
          pending := c :: s.pending, next := s.next }
  /-- The timer goroutine of cycle `c` wakes and runs `resetBusy`,
  unconditionally clearing the flag. -/
  | fire {s : SysState} {c : Nat} (h : c ∈ s.pending) :
      SysStep s (Label.fire c)
        { busy := none, obligations := s.obligations,
          pending := s.pending.erase c, next := s.next }

/-- Initial state: flag idle, no handlers in flight, no timers. -/
def initSys : SysState :=
  { busy := none, obligations := [], pending := [], next := 0 }

/-- States reachable from the initial state by interleaved transitions. -/
inductive Reach : SysState → Prop where
  | init : Reach initSys
  | step {s t : SysState} {l : Label} : Reach s → SysStep s l t → Reach t

/-- Inductive invariant of the lease/timer system: when the flag is idle
nothing is in flight; when cycle `c` holds the flag, exactly one of its
defer or its timer is outstanding, and no other cycle has anything
outstanding. -/
def SysInv (s : SysState) : Prop :=
  match s.busy with
  | none => s.obligations = [] ∧ s.pending = []
  | some c => (s.obligations = [c] ∧ s.pending = []) ∨
              (s.obligations = [] ∧ s.pending = [c])

/-! Helper lemmas about `BuildImage`. -/

/-- When the flag is busy, `BuildImage` is rejected at the admission
check and has no effect at all (vddk.go lines 63-67). -/
lemma buildImage_busy (r : Req) (s : SrvState)
    (hp : r.prepareOk = true) (hb : s.isBusy = true) :
    BuildImage r s =
      { state := s, responses := [(503, Msg.busy)], scheduled := [],
        acquired := false, formFileCalled := false, openCalled := false,
        mkdirCalled := false, createCalled := false, copyCalled := false,
        triggerCalled := false } := by
  simp [BuildImage, hp, hb]

/-- When the flag is idle and `Prepare` succeeded, `BuildImage` acquires
the lease, leaves the flag set, and schedules exactly one release at the
fixed delay, on every branch. -/
lemma buildImage_acquires (r : Req) (s : SrvState)
    (hp : r.prepareOk = true) (hb : s.isBusy = false) :
    (BuildImage r s).acquired = true ∧
    (BuildImage r s).state.isBusy = true ∧
    (BuildImage r s).scheduled = [waitForDownload] := by
  cases hf : r.hasFile <;> cases ho : r.openOk <;> cases hm : r.mkdirOk <;>
    cases hc : r.createOk <;> cases hcp : r.copyOk <;> cases ht : r.triggerOk <;>
    simp [BuildImage, hp, hb, hf, ho, hm, hc, hcp, ht]

/-- On the fully successful staging path the resulting shared state has
the flag set and the staged file holding exactly the uploaded payload,
whatever the trigger outcome. -/
lemma buildImage_staged_state (r : Req) (s : SrvState)
    (hp : r.prepareOk = true) (hb : s.isBusy = false)
    (hf : r.hasFile = true) (ho : r.openOk = true) (hm : r.mkdirOk = true)
    (hc : r.createOk = true) (hcp : r.copyOk = true) :
    (BuildImage r s).state = { isBusy := true, vddkFile := some r.payload } := by
  cases ht : r.triggerOk <;>
    simp [BuildImage, hp, hb, hf, ho, hm, hc, hcp, ht]

/-! Invariant proof for the lease/timer transition system. -/

/-- The invariant holds initially. -/
lemma sysInv_init : SysInv initSys := by
  constructor <;> rfl

/-- The invariant is preserved by every transition. -/
lemma sysInv_step {s t : SysState} {l : Label}
    (hstep : SysStep s l t) (hinv : SysInv s) : SysInv t := by
  cases hstep with
  | acq h =>
      simp only [SysInv, h] at hinv
      simp [SysInv, hinv.1, hinv.2]
  | sched h =>
      rename_i c
      unfold SysInv at hinv ⊢
      cases hbusy : s.busy with
      | none =>
          rw [hbusy] at hinv
          rw [hinv.1] at h
          exact absurd h (List.not_mem_nil c)
      | some c0 =>
          rw [hbusy] at hinv
          rcases hinv with ⟨hob, hpd⟩ | ⟨hob, hpd⟩
          · rw [hob] at h
            have hceq : c = c0 := by simpa using h
            subst hceq
            simp [hbusy, hob, hpd]
          · rw [hob] at h
            exact absurd h (List.not_mem_nil c)
  | fire h =>
      rename_i c
      unfold SysInv at hinv ⊢
      cases hbusy : s.busy with
      | none =>
          rw [hbusy] at hinv
          rw [hinv.2] at h
          exact absurd h (List.not_mem_nil c)
      | some c0 =>
          rw [hbusy] at hinv
          rcases hinv with ⟨hob, hpd⟩ | ⟨hob, hpd⟩
          · rw [hpd] at h
            exact absurd h (List.not_mem_nil c)
          · rw [hpd] at h
            have hceq : c = c0 := by simpa using h
            subst hceq
            simp [hob, hpd]

/-- Every reachable state satisfies the invariant. -/
lemma sysInv_reach {s : SysState} (h : Reach s) : SysInv s := by
  induction h with
  | init => exact sysInv_init
  | step _ hstep ih => exact sysInv_step hstep ih

/-- In a reachable state, a timer can only fire for the cycle that
currently holds the flag: the only release path is the scheduled one,
and a later acquisition is enabled only after the earlier cycle's timer
has already fired. -/
lemma fire_own_cycle {s t : SysState} {c : Nat}
    (hR : Reach s) (hS : SysStep s (Label.fire c) t) :
    s.busy = some c := by
  have hinv := sysInv_reach hR
  cases hS with
  | fire h =>
      unfold SysInv at hinv
      cases hbusy : s.busy with
      | none =>
          rw [hbusy] at hinv
          rw [hinv.2] at h
          exact absurd h (List.not_mem_nil c)
      | some c0 =>
          rw [hbusy] at hinv
          rcases hinv with ⟨hob, hpd⟩ | ⟨hob, hpd⟩
          · rw [hpd] at h
            exact absurd h (List.not_mem_nil c)
          · rw [hpd] at h
            have hceq : c = c0 := by simpa using h
            subst hceq
            rfl

/-- In an interleaved run that starts with the flag busy and contains no
release, every attempt is rejected with the busy response and none
acquires. -/
lemma runH_busy_run (req : Req) (hp : req.prepareOk = true) :
    ∀ (evs : List Ev) (s : SrvState), Ev.release ∉ evs → s.isBusy = true →
      acquiredCount (runH req s evs).2 = 0 ∧
      ∀ h ∈ (runH req s evs).2, h.acquired = false ∧ h.responses = [(503, Msg.busy)] := by
  intro evs
  induction evs with
  | nil =>
      intro s _ _
      refine ⟨rfl, ?_⟩
      intro h hh
      simp [runH] at hh
  | cons e evs ih =>
      intro s hnr hb
      cases e with
      | release => exact absurd (List.mem_cons_self _ _) hnr
      | attempt =>
          have hnr' : Ev.release ∉ evs := fun hmem => hnr (List.mem_cons_of_mem _ hmem)
          have hB := buildImage_busy req s hp hb
          have hstate : (BuildImage req s).state = s := by rw [hB]
          have hacq : (BuildImage req s).acquired = false := by rw [hB]
          have hresp : (BuildImage req s).responses = [(503, Msg.busy)] := by rw [hB]
          obtain ⟨ihc, ihm⟩ := ih s hnr' hb
          constructor
          · simp only [runH, hstate]
            simp only [acquiredCount, List.countP_cons, hacq] at ihc ⊢
            simp [ihc]
          · intro x hx
            simp only [runH, List.mem_cons, hstate] at hx
            rcases hx with rfl | hx
            · exact ⟨hacq, hresp⟩
            · exact ihm x hx

/-- In an interleaved run that starts with the flag idle and contains no
release, at most one attempt acquires — exactly one when there is at
least one attempt — and every non-acquiring attempt gets the busy
response. -/
lemma runH_idle_run (req : Req) (evs : List Ev) (s : SrvState)
    (hp : req.prepareOk = true) (hnr : Ev.release ∉ evs) (hb : s.isBusy = false) :
    acquiredCount (runH req s evs).2 ≤ 1 ∧
    (Ev.attempt ∈ evs → acquiredCount (runH req s evs).2 = 1) ∧
    ∀ h ∈ (runH req s evs).2, h.acquired = false → h.responses = [(503, Msg.busy)] := by
  cases evs with
  | nil =>
      refine ⟨by simp [runH, acquiredCount], by simp, ?_⟩
      intro h hh
      simp [runH] at hh
  | cons e evs =>
      cases e with
      | release => exact absurd (List.mem_cons_self _ _) hnr
      | attempt =>
          have hnr' : Ev.release ∉ evs := fun hmem => hnr (List.mem_cons_of_mem _ hmem)
          obtain ⟨hacq, hsb, _⟩ := buildImage_acquires req s hp hb
          obtain ⟨ihc, ihm⟩ := runH_busy_run req hp evs (BuildImage req s).state hnr' hsb
          have hcount : acquiredCount (runH req s (Ev.attempt :: evs)).2 = 1 := by
            simp only [runH]
            simp only [acquiredCount, List.countP_cons, hacq] at ihc ⊢
            simp [ihc]
          refine ⟨le_of_eq hcount, fun _ => hcount, ?_⟩
          intro x hx hxa
          simp only [runH, List.mem_cons] at hx
          rcases hx with rfl | hx
          · rw [hacq] at hxa
            cases hxa
          · exact (ihm x hx).2

/-- C1: among any interleaved sequence of `BuildImage` admission
attempts with no intervening release (explicit or scheduled), at most
one attempt observes the lease idle and acquires it — exactly one as
soon as there is at least one attempt — and every other attempt is
rejected with the 503 busy response.  The check-and-set of `isBusy` is
atomic in this model because `runH` executes it as one step, mirroring
the `buildLock` critical section at vddk.go lines 62-69. -/
theorem C1_single_admission (req : Req) (evs : List Ev) (s : SrvState)
    (hp : req.prepareOk = true) (hb : s.isBusy = false) (hnr : Ev.release ∉ evs) :
    acquiredCount (runH req s evs).2 ≤ 1 ∧
    (Ev.attempt ∈ evs → acquiredCount (runH req s evs).2 = 1) ∧
    ∀ h ∈ (runH req s evs).2, h.acquired = false → h.responses = [(503, Msg.busy)] :=
  runH_idle_run req evs s hp hnr hb

/-- Witness for C1: three parallel attempts from the idle state, exactly
one acquisition. -/
theorem C1_single_admission_witness :
    acquiredCount (runH ⟨true, 200, true, true, true, true, true, [], [1], true⟩
        ⟨false, none⟩ [Ev.attempt, Ev.attempt, Ev.attempt]).2 ≤ 1 ∧
    (Ev.attempt ∈ [Ev.attempt, Ev.attempt, Ev.attempt] →
      acquiredCount (runH ⟨true, 200, true, true, true, true, true, [], [1], true⟩
        ⟨false, none⟩ [Ev.attempt, Ev.attempt, Ev.attempt]).2 = 1) ∧
    ∀ h ∈ (runH ⟨true, 200, true, true, true, true, true, [], [1], true⟩
        ⟨false, none⟩ [Ev.attempt, Ev.attempt, Ev.attempt]).2,
      h.acquired = false → h.responses = [(503, Msg.busy)] :=
  C1_single_admission ⟨true, 200, true, true, true, true, true, [], [1], true⟩
    [Ev.attempt, Ev.attempt, Ev.attempt] ⟨false, none⟩ rfl rfl (by decide)

/-- Counterexample for C5: the claimed execution does not exist.  In no
reachable state can a scheduled release fire while a cycle other than
its own holds the flag: the code has no explicit release path
(`resetBusy` is called only from the timer spawned by `resetBusyAfter`),
so a later acquisition is only enabled once the earlier cycle's timer
has already fired and is gone. -/
theorem C5_stale_clear_unreachable :
    ¬ ∃ (s t : SysState) (c : Nat),
        Reach s ∧ SysStep s (Label.fire c) t ∧ s.busy ≠ some c := by
  rintro ⟨s, t, c, hR, hS, hne⟩
  exact hne (fire_own_cycle hR hS)

/-- C5 (amended): in every reachable execution, a scheduled release only
fires for the cycle that currently holds the flag — a stale timer from
an earlier cycle can never survive into a later acquisition cycle, so no
newer legitimate busy state is ever cleared — and firing is safe: it
leaves the flag idle and preserves the system invariant (no error, no
corruption of the lock state). -/
theorem C5_release_fires_own_cycle {s t : SysState} {c : Nat}
    (hR : Reach s) (hS : SysStep s (Label.fire c) t) :
    s.busy = some c ∧ t.busy = none ∧ SysInv t := by
  refine ⟨fire_own_cycle hR hS, ?_, sysInv_step hS (sysInv_reach hR)⟩
  cases hS with
  | fire h => rfl

/-- Witness for C5 (amended): the concrete run acquire-cycle-0, schedule,
fire, evaluated at the reachable state just before the fire step. -/
theorem C5_release_fires_own_cycle_witness :
    (⟨some 0, [], [0], 1⟩ : SysState).busy = some 0 ∧
    (⟨none, [], [], 1⟩ : SysState).busy = none ∧
    SysInv ⟨none, [], [], 1⟩ := by
  have h1 : Reach ⟨some 0, [0], [], 1⟩ := Reach.step Reach.init (SysStep.acq rfl)
  have h2 : SysStep ⟨some 0, [0], [], 1⟩ (Label.sched 0) ⟨some 0, [], [0], 1⟩ :=
    @SysStep.sched ⟨some 0, [0], [], 1⟩ 0 (by decide)
  have h3 : SysStep ⟨some 0, [], [0], 1⟩ (Label.fire 0) ⟨none, [], [], 1⟩ :=
    @SysStep.fire ⟨some 0, [], [0], 1⟩ 0 (by decide)
  exact C5_release_fires_own_cycle (Reach.step h1 h2) h3

/-- C7: a `BuildImage` request rejected because the lease is already
held returns exactly the 503 busy response and performs no side effects:
the shared state is unchanged, nothing is scheduled, and none of the
file-form read, file open, directory creation, file creation, stream
copy or build trigger is invoked (vddk.go lines 62-67 return before any
of them). -/
theorem C7_rejection_no_side_effects (r : Req) (s : SrvState)
    (hp : r.prepareOk = true) (hb : s.isBusy = true) :
    BuildImage r s =
      { state := s, responses := [(503, Msg.busy)], scheduled := [],
        acquired := false, formFileCalled := false, openCalled := false,
        mkdirCalled := false, createCalled := false, copyCalled := false,
        triggerCalled := false } :=
  buildImage_busy r s hp hb

/-- Witness for C7: a concrete rejected request with a staged file
already present. -/
theorem C7_rejection_no_side_effects_witness :
    BuildImage ⟨true, 200, true, true, true, true, true, [], [9], true⟩
        ⟨true, some [5]⟩ =
      { state := ⟨true, some [5]⟩, responses := [(503, Msg.busy)], scheduled := [],
        acquired := false, formFileCalled := false, openCalled := false,
        mkdirCalled := false, createCalled := false, copyCalled := false,
        triggerCalled := false } :=
  C7_rejection_no_side_effects ⟨true, 200, true, true, true, true, true, [], [9], true⟩
    ⟨true, some [5]⟩ rfl rfl

/-- C8: `resetBusy` is idempotent and unconditional: it always leaves
the flag idle, applying it twice equals applying it once, applying it
any positive number of times equals applying it once, and applying it to
an already-idle state is a no-op.  It is a total function — there is no
error outcome (the Go function only locks, assigns `false`, unlocks). -/
theorem C8_release_idempotent (s : SrvState) (n : Nat) :
    (resetBusy s).isBusy = false ∧
    resetBusy (resetBusy s) = resetBusy s ∧
    resetBusy^[n + 1] s = resetBusy s ∧
    resetBusy { s with isBusy := false } = { s with isBusy := false } := by
  refine ⟨rfl, rfl, ?_, rfl⟩
  induction n generalizing s with
  | zero => rfl
  | succ n ih =>
      rw [Function.iterate_succ_apply]
      rw [ih (resetBusy s)]
      rfl

/-- Counterexample for C2: an idle-state request whose multipart form is
missing the file field does get the 400 response, but the lease state is
NOT unchanged — the busy flag was acquired before `ctx.FormFile` runs
(vddk.go line 68 precedes line 72) and the deferred release at the fixed
delay is scheduled.  This refutes the claim's "the busy flag is not
acquired and no release is scheduled". -/
theorem C2_counterexample :
    (BuildImage ⟨true, 200, false, true, true, true, true, [], [], true⟩
        ⟨false, none⟩).responses = [(400, Msg.noFile)] ∧
    (BuildImage ⟨true, 200, false, true, true, true, true, [], [], true⟩
        ⟨false, none⟩).acquired = true ∧
    (BuildImage ⟨true, 200, false, true, true, true, true, [], [], true⟩
        ⟨false, none⟩).scheduled = [waitForDownload] := by
  decide

/-- C2 (amended): a `BuildImage` request with a missing or empty file
field returns the 400 client-input error and performs no storage or
trigger side effects — the staged file is untouched and none of file
open, directory creation, file creation, copy or build trigger runs —
but the busy flag has already been acquired by then, and exactly one
automatic release at the fixed delay is scheduled, so the lease is busy
until it self-expires rather than untouched. -/
theorem C2_missing_file_acquires (r : Req) (s : SrvState)
    (hp : r.prepareOk = true) (hb : s.isBusy = false) (hf : r.hasFile = false) :
    (BuildImage r s).responses = [(400, Msg.noFile)] ∧
    (BuildImage r s).acquired = true ∧
    (BuildImage r s).scheduled = [waitForDownload] ∧
    (BuildImage r s).state.vddkFile = s.vddkFile ∧
    (BuildImage r s).openCalled = false ∧
    (BuildImage r s).mkdirCalled = false ∧
    (BuildImage r s).createCalled = false ∧
    (BuildImage r s).copyCalled = false ∧
    (BuildImage r s).triggerCalled = false := by
  simp [BuildImage, hp, hb, hf]

/-- Witness for C2 (amended): a concrete missing-file request against an
idle state with a previously staged file. -/
theorem C2_missing_file_acquires_witness :
    (BuildImage ⟨true, 200, false, true, true, true, true, [], [4], true⟩
        ⟨false, some [8]⟩).responses = [(400, Msg.noFile)] ∧
    (BuildImage ⟨true, 200, false, true, true, true, true, [], [4], true⟩
        ⟨false, some [8]⟩).acquired = true ∧
    (BuildImage ⟨true, 200, false, true, true, true, true, [], [4], true⟩
        ⟨false, some [8]⟩).scheduled = [waitForDownload] ∧
    (BuildImage ⟨true, 200, false, true, true, true, true, [], [4], true⟩
        ⟨false, some [8]⟩).state.vddkFile = (⟨false, some [8]⟩ : SrvState).vddkFile ∧
    (BuildImage ⟨true, 200, false, true, true, true, true, [], [4], true⟩
        ⟨false, some [8]⟩).openCalled = false ∧
    (BuildImage ⟨true, 200, false, true, true, true, true, [], [4], true⟩
        ⟨false, some [8]⟩).mkdirCalled = false ∧
    (BuildImage ⟨true, 200, false, true, true, true, true, [], [4], true⟩
        ⟨false, some [8]⟩).createCalled = false ∧
    (BuildImage ⟨true, 200, false, true, true, true, true, [], [4], true⟩
        ⟨false, some [8]⟩).copyCalled = false ∧
    (BuildImage ⟨true, 200, false, true, true, true, true, [], [4], true⟩
        ⟨false, some [8]⟩).triggerCalled = false :=
  C2_missing_file_acquires ⟨true, 200, false, true, true, true, true, [], [4], true⟩
    ⟨false, some [8]⟩ rfl rfl rfl

/-- C3 is a code bug: when `os.Create` fails the error branch at
vddk.go lines 91-95 writes the save-file error but is missing a
`return`, so execution falls through to `io.Copy` on the nil file
handle, which fails and writes a second error envelope — two responses
for one request, against the spec's one-response propagation policy and
against every sibling error branch in the same function, all of which
return.  This theorem evaluates the handler at the failing input. -/
theorem C3_create_failure_double_response :
    (BuildImage ⟨true, 200, true, true, true, false, true, [], [7], true⟩
        ⟨false, none⟩).responses = [(500, Msg.saveFail), (500, Msg.copyFail)] ∧
    (BuildImage ⟨true, 200, true, true, true, false, true, [], [7], true⟩
        ⟨false, none⟩).responses.length = 2 ∧
    (BuildImage ⟨true, 200, true, true, true, false, true, [], [7], true⟩
        ⟨false, none⟩).triggerCalled = false := by
  decide

/-- C4: every `BuildImage` request that acquires the lease schedules
exactly one automatic release, with exactly the fixed delay
`waitForDownload` — never early, never skipped — whatever the staging or
trigger outcome (the `defer` at vddk.go line 70 runs on every return
path after acquisition); and when the trigger is reached the handler
immediately returns the trigger outcome: the 200 success envelope when
`BuildAndPushImage` returned nil, the 500 error envelope otherwise.  The
model has no build-completion input at all, so the response cannot
depend on the external build finishing. -/
theorem C4_release_scheduled_once (r : Req) (s : SrvState)
    (hp : r.prepareOk = true) (hb : s.isBusy = false) :
    (BuildImage r s).acquired = true ∧
    (BuildImage r s).scheduled = [waitForDownload] ∧
    (r.hasFile = true → r.openOk = true → r.mkdirOk = true →
      r.createOk = true → r.copyOk = true →
      (BuildImage r s).triggerCalled = true ∧
      (BuildImage r s).responses =
        [if r.triggerOk then (200, Msg.buildStarted) else (500, Msg.triggerFail)]) := by
  obtain ⟨h1, _, h3⟩ := buildImage_acquires r s hp hb
  refine ⟨h1, h3, ?_⟩
  intro hf ho hm hc hcp
  cases ht : r.triggerOk <;>
    simp [BuildImage, hp, hb, hf, ho, hm, hc, hcp, ht]

/-- Witness for C4: a fully staged request whose trigger call fails
still schedules the release at the normal delay and returns the trigger
error. -/
theorem C4_release_scheduled_once_witness :
    (BuildImage ⟨true, 200, true, true, true, true, true, [], [3], false⟩
        ⟨false, none⟩).acquired = true ∧
    (BuildImage ⟨true, 200, true, true, true, true, true, [], [3], false⟩
        ⟨false, none⟩).scheduled = [waitForDownload] ∧
    (true = true → true = true → true = true → true = true → true = true →
      (BuildImage ⟨true, 200, true, true, true, true, true, [], [3], false⟩
        ⟨false, none⟩).triggerCalled = true ∧
      (BuildImage ⟨true, 200, true, true, true, true, true, [], [3], false⟩
        ⟨false, none⟩).responses =
        [if false then (200, Msg.buildStarted) else (500, Msg.triggerFail)]) :=
  C4_release_scheduled_once ⟨true, 200, true, true, true, true, true, [], [3], false⟩
    ⟨false, none⟩ rfl rfl

/-- C6: when copying the uploaded stream to the staged file fails, the
handler surfaces exactly the 500 copy-failure response and never invokes
the build trigger (vddk.go lines 98-101 return before line 103); the
lease still auto-expires on the normal schedule. -/
theorem C6_copy_failure_no_trigger (r : Req) (s : SrvState)
    (hp : r.prepareOk = true) (hb : s.isBusy = false)
    (hf : r.hasFile = true) (ho : r.openOk = true) (hm : r.mkdirOk = true)
    (hc : r.createOk = true) (hcp : r.copyOk = false) :
    (BuildImage r s).responses = [(500, Msg.copyFail)] ∧
    (BuildImage r s).triggerCalled = false ∧
    (BuildImage r s).scheduled = [waitForDownload] := by
  simp [BuildImage, hp, hb, hf, ho, hm, hc, hcp]

/-- Witness for C6: a concrete request failing at the copy step. -/
theorem C6_copy_failure_no_trigger_witness :
    (BuildImage ⟨true, 200, true, true, true, true, false, [2], [2, 6], true⟩
        ⟨false, none⟩).responses = [(500, Msg.copyFail)] ∧
    (BuildImage ⟨true, 200, true, true, true, true, false, [2], [2, 6], true⟩
        ⟨false, none⟩).triggerCalled = false ∧
    (BuildImage ⟨true, 200, true, true, true, true, false, [2], [2, 6], true⟩
        ⟨false, none⟩).scheduled = [waitForDownload] :=
  C6_copy_failure_no_trigger ⟨true, 200, true, true, true, true, false, [2], [2, 6], true⟩
    ⟨false, none⟩ rfl rfl rfl rfl rfl rfl rfl

/-- C9: staging then retrieving round-trips byte-identically, and a
second successful staging fully replaces the first: after the first
cycle's lease release, a second upload leaves the staged file holding
exactly the second payload (the first payload's bytes are gone, not
appended to), and retrieval returns exactly that.  `os.Create` truncates
and `io.Copy` writes the whole stream, and `DownloadVddkTar` reads the
same fixed path. -/
theorem C9_stage_retrieve_roundtrip (r1 r2 : Req) (dr : DReq) (s : SrvState)
    (hb : s.isBusy = false)
    (hp1 : r1.prepareOk = true) (hf1 : r1.hasFile = true) (ho1 : r1.openOk = true)
    (hm1 : r1.mkdirOk = true) (hc1 : r1.createOk = true) (hcp1 : r1.copyOk = true)
    (hp2 : r2.prepareOk = true) (hf2 : r2.hasFile = true) (ho2 : r2.openOk = true)
    (hm2 : r2.mkdirOk = true) (hc2 : r2.createOk = true) (hcp2 : r2.copyOk = true)
    (hdp : dr.prepareOk = true) (hds : dr.statErr = false) :
    (DownloadVddkTar dr (BuildImage r1 s).state).content = some r1.payload ∧
    (BuildImage r2 (resetBusy (BuildImage r1 s).state)).state.vddkFile = some r2.payload ∧
    (DownloadVddkTar dr
        (BuildImage r2 (resetBusy (BuildImage r1 s).state)).state).content =
      some r2.payload := by
  have h1 := buildImage_staged_state r1 s hp1 hb hf1 ho1 hm1 hc1 hcp1
  have hr : resetBusy (BuildImage r1 s).state =
      { isBusy := false, vddkFile := some r1.payload } := by
    rw [h1]
    rfl
  have h2 := buildImage_staged_state r2 { isBusy := false, vddkFile := some r1.payload }
    hp2 rfl hf2 ho2 hm2 hc2 hcp2
  refine ⟨?_, ?_, ?_⟩
  · rw [h1]
    simp [DownloadVddkTar, hdp, hds]
  · rw [hr, h2]
  · rw [hr, h2]
    simp [DownloadVddkTar, hdp, hds]

/-- Witness for C9: stage bytes `[1, 2]`, retrieve them, then stage
bytes `[3, 4]` after the lease release and retrieve only those. -/
theorem C9_stage_retrieve_roundtrip_witness :
    (DownloadVddkTar ⟨true, 200, false⟩
        (BuildImage ⟨true, 200, true, true, true, true, true, [], [1, 2], true⟩
          ⟨false, none⟩).state).content = some [1, 2] ∧
    (BuildImage ⟨true, 200, true, true, true, true, true, [], [3, 4], true⟩
        (resetBusy (BuildImage ⟨true, 200, true, true, true, true, true, [], [1, 2], true⟩
          ⟨false, none⟩).state)).state.vddkFile = some [3, 4] ∧
    (DownloadVddkTar ⟨true, 200, false⟩
        (BuildImage ⟨true, 200, true, true, true, true, true, [], [3, 4], true⟩
          (resetBusy (BuildImage ⟨true, 200, true, true, true, true, true, [], [1, 2], true⟩
            ⟨false, none⟩).state)).state).content = some [3, 4] :=
  C9_stage_retrieve_roundtrip
    ⟨true, 200, true, true, true, true, true, [], [1, 2], true⟩
    ⟨true, 200, true, true, true, true, true, [], [3, 4], true⟩
    ⟨true, 200, false⟩ ⟨false, none⟩
    rfl rfl rfl rfl rfl rfl rfl rfl rfl rfl rfl rfl rfl rfl rfl

/-- C10: the read-only endpoints never touch the shared mutable state of
the build path.  For every `ImageUrl` and every `DownloadVddkTar`
request, the shared state (busy flag and staged file) is returned
unchanged, no release is ever scheduled, and neither handler's output
depends on the busy flag (it is not even read): flipping the flag in the
input state changes no response, no image reference and no streamed
content. -/
theorem C10_readonly_endpoints_frame (ri : IReq) (rd : DReq) (s : SrvState) (b : Bool) :
    (ImageUrl ri s).state = s ∧
    (ImageUrl ri s).scheduled = [] ∧
    (DownloadVddkTar rd s).state = s ∧
    (DownloadVddkTar rd s).scheduled = [] ∧
    (ImageUrl ri { s with isBusy := b }).responses = (ImageUrl ri s).responses ∧
    (ImageUrl ri { s with isBusy := b }).imageRefOut = (ImageUrl ri s).imageRefOut ∧
    (DownloadVddkTar rd { s with isBusy := b }).responses =
      (DownloadVddkTar rd s).responses ∧
    (DownloadVddkTar rd { s with isBusy := b }).content =
      (DownloadVddkTar rd s).content := by
  obtain ⟨sb, sf⟩ := s
  cases sf <;> simp only [ImageUrl, DownloadVddkTar] <;> split_ifs <;> simp_all
